import Mathlib

/-!
Shallow embedding of the papertrail-mcp-server core components:
the per-caller rate limiter (`src/middleware/rateLimiter.js`), the resilient
Papertrail API client (`src/papertrailClient.js`, present in both an ESM and a
CJS variant), and the `search_logs` tool pipeline
(`src/tools/searchLogs.js` together with the argument validator in
`src/middleware/errorHandler.js`).

Conventions of the embedding:
* JavaScript wall-clock instants (`Date.now()`) are integers counting
  milliseconds; they are passed explicitly to every function that reads the
  clock in the source.
* JavaScript numbers occurring in this code are integer-valued throughout, so
  they are modelled as `Int`; `Math.floor(a / b)` for `b > 0` is `Int.fdiv`.
* Optional / possibly-`undefined` fields are `Option`; JS truthiness on an
  integer-valued field (`x || d`, `...(x && {...})`) treats `0` like absence.
* Thrown exceptions are `Except` values; a `try`/`catch` is a `match` on them.
* Network I/O is an environment parameter: `makeRequest` receives the outcome
  (HTTP error text or parsed JSON payload) of each attempt as a function from
  the attempt number.  The backoff sleeps are recorded as a list of delays in
  milliseconds rather than actually waiting.
* Presentation-only strings (emoji text blocks built by `formatSearchResults`
  and `getErrorMessage`) are not part of the embedded result records; the
  structured fields (success flags, error codes, messages, counts, parameters
  sent upstream) are embedded faithfully.
-/

namespace Papertrail

/-- JS `x || d` for an integer-valued optional field: `undefined` and `0` are
falsy and fall through to the default. -/
def jsOr (o : Option Int) (d : Int) : Int :=
  match o with
  | none => d
  | some v => if v = 0 then d else v

/-- JS truthiness used by object spreads `...(x && { k: x })`: the field is
included only when `x` is present and nonzero. -/
def jsTruthy (o : Option Int) : Option Int :=
  match o with
  | none => none
  | some v => if v = 0 then none else some v

/-- `Math.max(...l)` for a nonempty list (the sources only apply it guarded by
a nonemptiness check; the `[]` case is irrelevant and returns 0). -/
def listMax : List Int → Int
  | [] => 0
  | h :: t => t.foldl max h

/-- `Math.min(...l)` for a nonempty list (same guard remark as `listMax`). -/
def listMin : List Int → Int
  | [] => 0
  | h :: t => t.foldl min h

/-- `Math.ceil(a / b)` on integers for `b > 0`. -/
def jsCeilDiv (a b : Int) : Int := -((-a).fdiv b)

/-- JS `String.prototype.trim()`: strip leading and trailing whitespace. -/
def jsTrim (s : String) : String :=
  ⟨((s.data.dropWhile Char.isWhitespace).reverse.dropWhile Char.isWhitespace).reverse⟩

/-! ### Rate limiter (`src/middleware/rateLimiter.js`) -/

/-- One entry of the `clients` map: `{ requests: [], burstTokens: number }`. -/
structure ClientRecord where
  requests : List Int
  burstTokens : Int
  deriving DecidableEq, Repr

/-- The `RateLimiter` instance state: configuration plus the `clients` map,
modelled as an association list in insertion order (`Map` semantics). -/
structure RateLimiter where
  requestsPerMinute : Int
  burst : Int
  clients : List (String × ClientRecord)
  deriving DecidableEq, Repr

/-- The object returned by `checkLimit`: `reason` and `retryAfter` are only
present on denial. -/
structure CheckResult where
  allowed : Bool
  reason : Option String
  remaining : Int
  resetTime : Int
  retryAfter : Option Int
  deriving DecidableEq, Repr

/-- `this.clients.get(cid)` (first matching key). -/
def getClient (l : List (String × ClientRecord)) (cid : String) : Option ClientRecord :=
  match l with
  | [] => none
  | (k, v) :: rest => if k = cid then some v else getClient rest cid

/-- `this.clients.set(cid, c)`: replace in place, or append when absent. -/
def setClient (l : List (String × ClientRecord)) (cid : String) (c : ClientRecord) :
    List (String × ClientRecord) :=
  match l with
  | [] => [(cid, c)]
  | (k, v) :: rest => if k = cid then (cid, c) :: rest else (k, v) :: setClient rest cid c

/-- The caller record `checkLimit` operates on: the stored one, or the fresh
`{ requests: [], burstTokens: this.burst }` created on first sight. -/
def currentClient (s : RateLimiter) (cid : String) : ClientRecord :=
  (getClient s.clients cid).getD ⟨[], s.burst⟩

/-- `client.requests.filter(ts => ts > windowStart)` with
`windowStart = now - 60000`: the caller requests still inside the sliding
60-second window at time `now`. -/
def trimmedRequests (s : RateLimiter) (cid : String) (now : Int) : List Int :=
  (currentClient s cid).requests.filter (fun ts => now - 60000 < ts)

/-- The burst-token refill of `checkLimit`: full credit when the trimmed
window is empty, otherwise one token per full 10 seconds since the most
recent request, capped at `this.burst`. -/
def refilledTokens (s : RateLimiter) (cid : String) (now : Int) : Int :=
  let trimmed := trimmedRequests s cid now
  let tokensSinceLastRequest :=
    if 0 < trimmed.length then (now - listMax trimmed).fdiv 10000 else s.burst
  min s.burst ((currentClient s cid).burstTokens + tokensSinceLastRequest)

/-- `RateLimiter.checkLimit(clientId)` at wall-clock time `now` (ms).
Mirrors the source step by step: get-or-create the record, trim the 60s
window (`trimmedRequests`), refill burst tokens (`refilledTokens`), then
branch: burst check, window check, or allow (record `now`, consume one
token).  The record stored back into the map reflects the in-place mutations
performed before the branch (trim and refill), also on the denial paths. -/
def checkLimit (s : RateLimiter) (cid : String) (now : Int) :
    CheckResult × RateLimiter :=
  let windowStart := now - 60000
  let trimmed := trimmedRequests s cid now
  let tokens := refilledTokens s cid now
  if tokens ≤ 0 then
    (⟨false, some "burst_limit_exceeded", 0, now + 10000, some 10⟩,
     { s with clients := setClient s.clients cid ⟨trimmed, tokens⟩ })
  else if s.requestsPerMinute ≤ (trimmed.length : Int) then
    let oldestRequest := listMin trimmed
    let resetTime := oldestRequest + 60000
    (⟨false, some "rate_limit_exceeded", 0, resetTime,
      some (jsCeilDiv (resetTime - now) 1000)⟩,
     { s with clients := setClient s.clients cid ⟨trimmed, tokens⟩ })
  else
    (⟨true, none,
      min (s.requestsPerMinute - ((trimmed.length : Int) + 1)) (tokens - 1),
      windowStart + 60000, none⟩,
     { s with clients := setClient s.clients cid ⟨trimmed ++ [now], tokens - 1⟩ })

/-- `RateLimiter.cleanup()` at time `now`: drop every client none of whose
recorded timestamps is more recent than `now - 300000` ms. -/
def cleanup (s : RateLimiter) (now : Int) : RateLimiter :=
  { s with clients :=
      s.clients.filter (fun kv => kv.2.requests.any (fun ts => decide (now - 300000 < ts))) }

/-- One observed `checkLimit` call in a call sequence: the returned decision,
together with the in-window request count and the refilled burst credit the
call computed before branching. -/
structure CallObs where
  result : CheckResult
  windowCount : Nat
  tokensAtCheck : Int
  deriving DecidableEq, Repr

/-- A sequence of `checkLimit` calls for one caller at the given instants,
threading the limiter state. -/
def runChecks (s : RateLimiter) (cid : String) : List Int → List CallObs × RateLimiter
  | [] => ([], s)
  | t :: ts =>
    let r := checkLimit s cid t
    let rest := runChecks r.2 cid ts
    (⟨r.1, (trimmedRequests s cid t).length, refilledTokens s cid t⟩ :: rest.1, rest.2)

/-- Invariant threaded through a ≥10s-spaced call sequence whose next call
happens at time `t`: the caller is either unknown, or its record holds
`burst - 1` tokens and only timestamps at least 10s older than `t`. -/
def C7Inv (s : RateLimiter) (cid : String) (t : Int) : Prop :=
  getClient s.clients cid = none ∨
  ∃ c, getClient s.clients cid = some c ∧ c.burstTokens = s.burst - 1 ∧
    ∀ x ∈ c.requests, x + 10000 ≤ t

/-! ### Papertrail API client (`src/papertrailClient.js`, ESM and CJS variants) -/

/-- A remote log event, with the fields the sources read
(cf. `parseEvent` and the debug formatter). -/
structure Event where
  id : Int
  received_at : String
  hostname : String
  program : String
  message : String
  severity : Int
  deriving DecidableEq, Repr

/-- The parsed JSON body of a successful `/events/search.json` response.
The sources read `result.events` and (CJS variant only) `result.total_events`;
the debug formatter also inspects `total_hits`.  Any of them may be absent. -/
structure Payload where
  events : Option (List Event)
  total_events : Option Int
  total_hits : Option Int
  deriving DecidableEq, Repr

/-- The aggregated message thrown after the final failed attempt. -/
def failMsg (maxRetries : Nat) (lastMsg : String) : String :=
  "Failed after " ++ toString maxRetries ++ " attempts: " ++ lastMsg

/-- The retry loop of `makeRequest`, recursing on the remaining attempts.
`attemptOutcome i` is what attempt number `i` (1-based) produces: the parsed
JSON on a 2xx response, or the thrown error message otherwise.  Returns the
overall outcome, the number of attempts performed, and the backoff delays
slept (ms), in order. -/
def makeRequestGo (attemptOutcome : Nat → Except String Payload) (maxRetries : Nat) :
    Nat → Nat → String → Except String Payload × Nat × List Int
  | 0, attempt, lastError => (.error (failMsg maxRetries lastError), attempt - 1, [])
  | remaining + 1, attempt, _ =>
    match attemptOutcome attempt with
    | .ok payload => (.ok payload, attempt, [])
    | .error e =>
      if attempt < maxRetries then
        let delay : Int := 2 ^ (attempt - 1) * 1000
        let rest := makeRequestGo attemptOutcome maxRetries remaining (attempt + 1) e
        (rest.1, rest.2.1, delay :: rest.2.2)
      else
        makeRequestGo attemptOutcome maxRetries remaining (attempt + 1) e

/-- `PapertrailClient.makeRequest(endpoint)`: up to `maxRetries` attempts,
exponential backoff `2^(attempt-1)` seconds between failed attempts, and an
aggregated error carrying the last attempt error once all attempts failed.
The loop body is identical in the ESM and CJS variants. -/
def makeRequest (maxRetries : Nat) (attemptOutcome : Nat → Except String Payload) :
    Except String Payload × Nat × List Int :=
  makeRequestGo attemptOutcome maxRetries maxRetries 1 ""

/-- The `options` argument of `PapertrailClient.searchLogs` (built by the tool
layer, or passed directly by other callers). -/
structure SearchOptions where
  minTime : Option Int
  maxTime : Option Int
  limit : Option Int
  system_id : Option Int
  group_id : Option Int
  deriving DecidableEq, Repr

/-- The query parameters of the one HTTP GET to `/events/search.json`
(`URLSearchParams` content, kept typed). -/
structure SentParams where
  q : String
  min_time : Int
  max_time : Int
  limit : Int
  system_id : Option Int
  group_id : Option Int
  deriving DecidableEq, Repr

/-- `timeRange` of a successful result. -/
structure TimeRange where
  minTime : Int
  maxTime : Int
  deriving DecidableEq, Repr

/-- The envelope returned by `searchLogs` (structured fields; the failure shape
has no `timeRange`/`metadata`). -/
structure SearchResult where
  success : Bool
  error : Option String
  events : List Event
  total : Int
  query : String
  timeRange : Option TimeRange
  metadataLimit : Option Int
  deriving DecidableEq, Repr

/-- `getDefaultMinTime()`: epoch seconds of one hour before `now` (ms). -/
def getDefaultMinTime (nowMs : Int) : Int := (nowMs - 60 * 60 * 1000).fdiv 1000

/-- `getDefaultMaxTime()`: epoch seconds of `now` (ms). -/
def getDefaultMaxTime (nowMs : Int) : Int := nowMs.fdiv 1000

/-- `formatTime(date)`: whole-second epoch value of a Date (ms). -/
def formatTime (ms : Int) : Int := ms.fdiv 1000

/-- The `URLSearchParams` built at the start of `searchLogs`, evaluated at
wall-clock time `nowMs`: absent (or zero, JS-falsy) `minTime`/`maxTime`
default to one hour ago / now; absent or zero `limit` defaults to 100;
`system_id`/`group_id` are included only when truthy. -/
def buildParams (query : String) (o : SearchOptions) (nowMs : Int) : SentParams :=
  { q := query
    min_time := jsOr o.minTime (getDefaultMinTime nowMs)
    max_time := jsOr o.maxTime (getDefaultMaxTime nowMs)
    limit := jsOr o.limit 100
    system_id := jsTruthy o.system_id
    group_id := jsTruthy o.group_id }

/-- `PapertrailClient.searchLogs` of the ESM variant (the one imported by the
`search_logs` tool).  `t1` is the wall clock when the request parameters are
built, `t2` the wall clock when the success envelope is built after the
response arrives (the source calls `getDefault{Min,Max}Time()` again there).
Returns the envelope together with the parameters actually sent.  The
`try`/`catch` of the source is the `match` on the `makeRequest` outcome:
on failure the envelope is `success:false` with the error message, no events
and `total: 0`.  ESM `total` is `result.events?.length || 0`. -/
def searchLogsESM (query : String) (o : SearchOptions) (maxRetries : Nat)
    (attemptOutcome : Nat → Except String Payload) (t1 t2 : Int) :
    SearchResult × SentParams :=
  let params := buildParams query o t1
  match (makeRequest maxRetries attemptOutcome).1 with
  | .ok result =>
    ({ success := true
       error := none
       events := result.events.getD []
       total := ((result.events.getD []).length : Int)
       query := query
       timeRange := some ⟨jsOr o.minTime (getDefaultMinTime t2),
                          jsOr o.maxTime (getDefaultMaxTime t2)⟩
       metadataLimit := some (jsOr o.limit 100) }, params)
  | .error e =>
    ({ success := false, error := some e, events := [], total := 0,
       query := query, timeRange := none, metadataLimit := none }, params)

/-- `PapertrailClient.searchLogs` of the CJS variant.  Identical to the ESM
variant except for `total`, which is
`result.total_events || result.events?.length || 0`. -/
def searchLogsCJS (query : String) (o : SearchOptions) (maxRetries : Nat)
    (attemptOutcome : Nat → Except String Payload) (t1 t2 : Int) :
    SearchResult × SentParams :=
  let params := buildParams query o t1
  match (makeRequest maxRetries attemptOutcome).1 with
  | .ok result =>
    ({ success := true
       error := none
       events := result.events.getD []
       total := jsOr result.total_events ((result.events.getD []).length : Int)
       query := query
       timeRange := some ⟨jsOr o.minTime (getDefaultMinTime t2),
                          jsOr o.maxTime (getDefaultMaxTime t2)⟩
       metadataLimit := some (jsOr o.limit 100) }, params)
  | .error e =>
    ({ success := false, error := some e, events := [], total := 0,
       query := query, timeRange := none, metadataLimit := none }, params)

/-! ### `search_logs` tool (`src/tools/searchLogs.js` + `src/middleware/errorHandler.js`) -/

/-- The tool arguments object.  Arguments arrive as parsed JSON:
`query`/`minTime`/`maxTime` are strings, `limit`/`systemId`/`groupId` are
numbers (integer-valued), any of them possibly absent.  For a present numeric
field, JS `typeof` yields `"number"`. -/
structure Args where
  query : Option String
  minTime : Option String
  maxTime : Option String
  limit : Option Int
  systemId : Option Int
  groupId : Option Int
  deriving DecidableEq, Repr

/-- `ErrorHandler.validateArgs(args, searchLogsTool.inputSchema)`, specialised
to the concrete schema of the tool.  Required check first (`query`), then the
per-property checks in declaration order.  The schema types of
`limit`/`systemId`/`groupId` are `"integer"`, but `typeof` of a JS number is
`"number"`, so every present numeric field fails the type check; `limit`
additionally gets range errors from its `minimum: 1` / `maximum: 1000`
constraints.  Present string fields match their `"string"` schema type and
have no length constraints, so they produce no errors. -/
def validateSearchArgs (a : Args) : List String :=
  (if a.query = none then ["Required field \x27query\x27 is missing"] else []) ++
  (match a.limit with
   | none => []
   | some v =>
     ["Field \x27limit\x27 must be of type integer, got number"] ++
     (if v < 1 then ["Field \x27limit\x27 must be at least 1"] else []) ++
     (if 1000 < v then ["Field \x27limit\x27 must be at most 1000"] else [])) ++
  (if a.systemId = none then []
   else ["Field \x27systemId\x27 must be of type integer, got number"]) ++
  (if a.groupId = none then []
   else ["Field \x27groupId\x27 must be of type integer, got number"])

/-- An error object created by `ErrorHandler.createError` (or by the rate-limit
middleware): a message, a code, and the ad hoc extra properties the sources
attach. -/
structure McpError where
  code : String
  message : String
  retryAfter : Option Int
  resetTime : Option Int
  remaining : Option Int
  validationErrors : Option (List String)
  deriving DecidableEq, Repr

/-- The structured part of the response built by `ErrorHandler.formatMcpError`
(success path responses reuse the same shape with `success: true`). -/
structure McpResponse where
  success : Bool
  error : Option String
  code : Option String
  retryAfter : Option Int
  resetTime : Option Int
  remaining : Option Int
  validationErrors : Option (List String)
  deriving DecidableEq, Repr

/-- `ErrorHandler.formatMcpError`: base envelope plus the code-specific fields
of the `switch` (rate-limit errors expose `retryAfter`/`resetTime`/`remaining`,
invalid-argument errors expose `validationErrors`). -/
def formatMcpError (e : McpError) : McpResponse :=
  { success := false
    error := some e.message
    code := some e.code
    retryAfter := if e.code = "RATE_LIMIT_EXCEEDED" then e.retryAfter else none
    resetTime := if e.code = "RATE_LIMIT_EXCEEDED" then e.resetTime else none
    remaining := if e.code = "RATE_LIMIT_EXCEEDED" then e.remaining else none
    validationErrors := if e.code = "INVALID_ARGUMENTS" then e.validationErrors else none }

/-- The `limit` entry of the `options` object built by `executeSearchLogs`:
`Math.min(parseInt(args.limit) || 100, 1000)`.  `parseInt` of an absent value
is `NaN` (falsy), of an integer is itself; `0` is falsy too. -/
def executeLimit (l : Option Int) : Int :=
  match l with
  | none => 100
  | some v => if v = 0 then 100 else min v 1000

/-- `executeSearchLogs(args, clientId)`.  Environment parameters: the shared
rate limiter state `s` and the wall clock `nowRL` at the admission check;
`parseDate`, modelling `new Date(string)` (`none` when the result is `NaN`);
the per-attempt fetch outcomes and the two wall-clock reads inside
`searchLogs` (`t1`, `t2`).  Returns the structured tool response, the rate
limiter state after the call, and the parameters sent upstream (`none` when no
HTTP request was made).  Every `throw` inside the `try` lands in the `catch`,
which answers with `ErrorHandler.formatMcpError`. -/
def executeSearchLogs (a : Args) (cid : String) (s : RateLimiter) (nowRL : Int)
    (parseDate : String → Option Int) (maxRetries : Nat)
    (attemptOutcome : Nat → Except String Payload) (t1 t2 : Int) :
    McpResponse × RateLimiter × Option SentParams :=
  -- rateLimitMiddleware(clientId): checkLimit, throw on denial
  let checked := checkLimit s cid nowRL
  let res := checked.1
  let s1 := checked.2
  if res.allowed = false then
    (formatMcpError
      ⟨"RATE_LIMIT_EXCEEDED", "Rate limit exceeded: " ++ (res.reason.getD ""),
       res.retryAfter, some res.resetTime, some res.remaining, none⟩, s1, none)
  -- empty / missing query check
  else if jsTrim (a.query.getD "") = "" then
    (formatMcpError
      ⟨"INVALID_ARGUMENTS",
       "Query parameter is required and cannot be empty. Please provide search terms extracted from the user message.",
       none, none, none, none⟩, s1, none)
  -- ErrorHandler.validateArgs(args, searchLogsTool.inputSchema)
  else
    let errs := validateSearchArgs a
    if errs ≠ [] then
      (formatMcpError
        ⟨"INVALID_ARGUMENTS",
         "Validation failed: " ++ String.intercalate ", " errs,
         none, none, none, some errs⟩, s1, none)
    else
      -- options object, then the optional minTime/maxTime parses
      match (match a.minTime with
             | none => Except.ok none
             | some str =>
               match parseDate str with
               | none => Except.error
                   "Invalid minTime format. Use ISO 8601 format (e.g., 2023-12-01T10:00:00Z)"
               | some ms => Except.ok (some (formatTime ms))) with
      | .error msg =>
        (formatMcpError ⟨"INVALID_ARGUMENTS", msg, none, none, none, none⟩, s1, none)
      | .ok minT =>
        match (match a.maxTime with
               | none => Except.ok none
               | some str =>
                 match parseDate str with
                 | none => Except.error
                     "Invalid maxTime format. Use ISO 8601 format (e.g., 2023-12-01T11:00:00Z)"
                 | some ms => Except.ok (some (formatTime ms))) with
        | .error msg =>
          (formatMcpError ⟨"INVALID_ARGUMENTS", msg, none, none, none, none⟩, s1, none)
        | .ok maxT =>
          let options : SearchOptions :=
            { minTime := minT
              maxTime := maxT
              limit := some (executeLimit a.limit)
              system_id := jsTruthy a.systemId
              group_id := jsTruthy a.groupId }
          let searched := searchLogsESM (a.query.getD "") options maxRetries
            attemptOutcome t1 t2
          let result := searched.1
          if result.success = false then
            (formatMcpError
              ⟨"API_CONNECTION_ERROR",
               "Papertrail API request failed: " ++ (result.error.getD ""),
               none, none, none, none⟩, s1, some searched.2)
          else
            ({ success := true, error := none, code := none, retryAfter := none,
               resetTime := none, remaining := none, validationErrors := none },
             s1, some searched.2)

/-! ### Helper lemmas -/

theorem fdiv_thousand (a : Int) : a.fdiv 1000 = a / 1000 :=
  Int.fdiv_eq_ediv a (by norm_num)

theorem fdiv_tenthousand (a : Int) : a.fdiv 10000 = a / 10000 :=
  Int.fdiv_eq_ediv a (by norm_num)

theorem getClient_setClient_self (l : List (String × ClientRecord)) (cid : String)
    (c : ClientRecord) : getClient (setClient l cid c) cid = some c := by
  induction l with
  | nil => simp [setClient, getClient]
  | cons kv rest ih =>
    obtain ⟨k, v⟩ := kv
    simp only [setClient]
    by_cases h : k = cid
    · simp [h, getClient]
    · simp [getClient, h, ih]

theorem foldl_max_le {b : Int} :
    ∀ (l : List Int) (h : Int), h ≤ b → (∀ x ∈ l, x ≤ b) → l.foldl max h ≤ b
  | [], _, hh, _ => hh
  | a :: t, h, hh, hl =>
    foldl_max_le t (max h a)
      (max_le hh (hl a (List.mem_cons_self a t)))
      (fun x hx => hl x (List.mem_cons_of_mem a hx))

theorem listMax_le {b : Int} {l : List Int} (hl : ∀ x ∈ l, x ≤ b) (hne : l ≠ []) :
    listMax l ≤ b := by
  cases l with
  | nil => exact absurd rfl hne
  | cons a t =>
    exact foldl_max_le t a (hl a (List.mem_cons_self a t))
      (fun x hx => hl x (List.mem_cons_of_mem a hx))

theorem validateSearchArgs_nil {a : Args} (h : validateSearchArgs a = []) :
    a.limit = none ∧ a.systemId = none ∧ a.groupId = none := by
  cases hl : a.limit <;> cases hs : a.systemId <;> cases hg : a.groupId <;>
    simp_all [validateSearchArgs]

theorem searchLogsESM_params (query : String) (o : SearchOptions) (mr : Nat)
    (ao : Nat → Except String Payload) (t1 t2 : Int) :
    (searchLogsESM query o mr ao t1 t2).2 = buildParams query o t1 := by
  cases h : (makeRequest mr ao).1 <;> simp [searchLogsESM, h]

theorem checkLimit_burst_denied {s : RateLimiter} {cid : String} {now : Int}
    (h : refilledTokens s cid now ≤ 0) :
    checkLimit s cid now =
      (⟨false, some "burst_limit_exceeded", 0, now + 10000, some 10⟩,
       { s with clients :=
          setClient s.clients cid ⟨trimmedRequests s cid now, refilledTokens s cid now⟩ }) := by
  simp [checkLimit, h]

theorem checkLimit_window_denied {s : RateLimiter} {cid : String} {now : Int}
    (h1 : 0 < refilledTokens s cid now)
    (h2 : s.requestsPerMinute ≤ ((trimmedRequests s cid now).length : Int)) :
    checkLimit s cid now =
      (⟨false, some "rate_limit_exceeded", 0, listMin (trimmedRequests s cid now) + 60000,
        some (jsCeilDiv (listMin (trimmedRequests s cid now) + 60000 - now) 1000)⟩,
       { s with clients :=
          setClient s.clients cid ⟨trimmedRequests s cid now, refilledTokens s cid now⟩ }) := by
  simp only [checkLimit]
  rw [if_neg (by omega : ¬ refilledTokens s cid now ≤ 0), if_pos h2]

theorem checkLimit_allowed_eq {s : RateLimiter} {cid : String} {now : Int}
    (h1 : 0 < refilledTokens s cid now)
    (h2 : ((trimmedRequests s cid now).length : Int) < s.requestsPerMinute) :
    checkLimit s cid now =
      (⟨true, none,
        min (s.requestsPerMinute - (((trimmedRequests s cid now).length : Int) + 1))
          (refilledTokens s cid now - 1), now, none⟩,
       { s with clients := setClient s.clients cid ⟨trimmedRequests s cid now ++ [now],
            refilledTokens s cid now - 1⟩ }) := by
  have h3 : now - 60000 + 60000 = now := by omega
  simp only [checkLimit]
  rw [if_neg (by omega : ¬ refilledTokens s cid now ≤ 0),
    if_neg (by omega : ¬ s.requestsPerMinute ≤ ((trimmedRequests s cid now).length : Int)),
    h3]

/-! ### C3 — denial reason strings -/

/-- C3 counterexample: the code denies with reason strings
`burst_limit_exceeded` / `rate_limit_exceeded`, not the spec enum values
`burst_exhausted` / `window_exhausted`.  First run: burst capacity 1, two
calls in the same instant — the second is denied for exhausted burst credits,
with reason `"burst_limit_exceeded"`.  Second run: `requestsPerMinute = 2`
with two in-window requests — denied for the full window, with reason
`"rate_limit_exceeded"`. -/
theorem checkLimit_reason_counterexample :
    ((checkLimit (checkLimit ⟨60, 1, []⟩ "c" 1000000).2 "c" 1000000).1.allowed = false ∧
     (checkLimit (checkLimit ⟨60, 1, []⟩ "c" 1000000).2 "c" 1000000).1.reason
        = some "burst_limit_exceeded" ∧
     (checkLimit (checkLimit ⟨60, 1, []⟩ "c" 1000000).2 "c" 1000000).1.reason
        ≠ some "burst_exhausted") ∧
    ((checkLimit ⟨2, 5, [("c", ⟨[999990, 999995], 3⟩)]⟩ "c" 1000000).1.allowed = false ∧
     (checkLimit ⟨2, 5, [("c", ⟨[999990, 999995], 3⟩)]⟩ "c" 1000000).1.reason
        = some "rate_limit_exceeded" ∧
     (checkLimit ⟨2, 5, [("c", ⟨[999990, 999995], 3⟩)]⟩ "c" 1000000).1.reason
        ≠ some "window_exhausted") := by
  decide

/-- C3 (amended): every denied `checkLimit` decision carries reason
`"burst_limit_exceeded"` when the refilled burst credit is exhausted
(`≤ 0`), and `"rate_limit_exceeded"` when the 60-second window count has
reached `requestsPerMinute`; these are the only denial reasons. -/
theorem checkLimit_denial_reasons (s : RateLimiter) (cid : String) (now : Int) :
    (refilledTokens s cid now ≤ 0 →
      (checkLimit s cid now).1.allowed = false ∧
      (checkLimit s cid now).1.reason = some "burst_limit_exceeded") ∧
    (0 < refilledTokens s cid now →
      s.requestsPerMinute ≤ ((trimmedRequests s cid now).length : Int) →
      (checkLimit s cid now).1.allowed = false ∧
      (checkLimit s cid now).1.reason = some "rate_limit_exceeded") ∧
    ((checkLimit s cid now).1.allowed = false →
      (checkLimit s cid now).1.reason = some "burst_limit_exceeded" ∨
      (checkLimit s cid now).1.reason = some "rate_limit_exceeded") := by
  refine ⟨fun h => ?_, fun h1 h2 => ?_, fun hd => ?_⟩
  · rw [checkLimit_burst_denied h]; exact ⟨rfl, rfl⟩
  · rw [checkLimit_window_denied h1 h2]; exact ⟨rfl, rfl⟩
  · by_cases h : refilledTokens s cid now ≤ 0
    · rw [checkLimit_burst_denied h]; exact .inl rfl
    · by_cases h2 : s.requestsPerMinute ≤ ((trimmedRequests s cid now).length : Int)
      · rw [checkLimit_window_denied (by omega) h2]; exact .inr rfl
      · rw [checkLimit_allowed_eq (by omega) (by omega)] at hd
        exact absurd hd (by simp)

/-- C3 witness: the amended theorem applied at a concrete exhausted-burst
state and at a concrete full-window state. -/
theorem checkLimit_denial_reasons_witness :
    ((checkLimit (checkLimit ⟨60, 1, []⟩ "c" 1000000).2 "c" 1000000).1.reason
        = some "burst_limit_exceeded") ∧
    ((checkLimit ⟨2, 5, [("c", ⟨[999990, 999995], 3⟩)]⟩ "c" 1000000).1.reason
        = some "rate_limit_exceeded") :=
  ⟨((checkLimit_denial_reasons (checkLimit ⟨60, 1, []⟩ "c" 1000000).2 "c" 1000000).1
      (by decide)).2,
   (((checkLimit_denial_reasons ⟨2, 5, [("c", ⟨[999990, 999995], 3⟩)]⟩ "c" 1000000).2.1
      (by decide) (by decide))).2⟩

/-! ### C8 — per-caller state invariants -/

theorem trimmedRequests_mem {s : RateLimiter} {cid : String} {now ts : Int}
    (h : ts ∈ trimmedRequests s cid now) :
    ts ∈ (currentClient s cid).requests ∧ now - 60000 < ts := by
  simp only [trimmedRequests, List.mem_filter, decide_eq_true_eq] at h
  exact h

theorem refilledTokens_le (s : RateLimiter) (cid : String) (now : Int) :
    refilledTokens s cid now ≤ s.burst := by
  simp only [refilledTokens]
  exact min_le_left _ _

theorem currentClient_bounds {s : RateLimiter} {cid : String} {now : Int}
    (hb : 0 ≤ s.burst)
    (hrec : ∀ c, getClient s.clients cid = some c →
      0 ≤ c.burstTokens ∧ c.burstTokens ≤ s.burst ∧ ∀ ts ∈ c.requests, ts ≤ now) :
    0 ≤ (currentClient s cid).burstTokens ∧
    (currentClient s cid).burstTokens ≤ s.burst ∧
    ∀ ts ∈ (currentClient s cid).requests, ts ≤ now := by
  cases h : getClient s.clients cid with
  | none => simp [currentClient, h, hb]
  | some c => simpa [currentClient, h] using hrec c h

theorem refilledTokens_nonneg {s : RateLimiter} {cid : String} {now : Int}
    (hb : 0 ≤ s.burst)
    (hrec : ∀ c, getClient s.clients cid = some c →
      0 ≤ c.burstTokens ∧ c.burstTokens ≤ s.burst ∧ ∀ ts ∈ c.requests, ts ≤ now) :
    0 ≤ refilledTokens s cid now := by
  obtain ⟨h0, _, hreq⟩ := currentClient_bounds hb hrec
  by_cases hne : trimmedRequests s cid now = []
  · simp only [refilledTokens, hne]
    simp only [List.length_nil, lt_self_iff_false, if_false]
    omega
  · have hlen : 0 < (trimmedRequests s cid now).length := List.length_pos.mpr hne
    have hmax : listMax (trimmedRequests s cid now) ≤ now :=
      listMax_le (fun x hx => hreq x (trimmedRequests_mem hx).1) hne
    have hadd : 0 ≤ (now - listMax (trimmedRequests s cid now)).fdiv 10000 := by
      rw [fdiv_tenthousand]; omega
    simp only [refilledTokens, if_pos hlen]
    omega

/-- C8: after any `checkLimit` call made at time `now` against a state whose
record for the caller is well-formed (`burstTokens ∈ [0, burst]`, all
timestamps in the past), the caller's stored record still satisfies
`burstTokens ∈ [0, burst]`, and every stored timestamp lies within the last
60 seconds: strictly newer than `now - 60000` and at most `now`. -/
theorem checkLimit_invariants (s : RateLimiter) (cid : String) (now : Int)
    (hb : 0 ≤ s.burst)
    (hrec : ∀ c, getClient s.clients cid = some c →
      0 ≤ c.burstTokens ∧ c.burstTokens ≤ s.burst ∧ ∀ ts ∈ c.requests, ts ≤ now) :
    ∀ c', getClient (checkLimit s cid now).2.clients cid = some c' →
      0 ≤ c'.burstTokens ∧ c'.burstTokens ≤ s.burst ∧
      ∀ ts ∈ c'.requests, now - 60000 < ts ∧ ts ≤ now := by
  obtain ⟨h0, hcap, hreq⟩ := currentClient_bounds hb hrec
  have hnn := refilledTokens_nonneg hb hrec
  have hle := refilledTokens_le s cid now
  have htrim : ∀ ts ∈ trimmedRequests s cid now, now - 60000 < ts ∧ ts ≤ now :=
    fun ts hts => ⟨(trimmedRequests_mem hts).2, hreq ts (trimmedRequests_mem hts).1⟩
  intro c' hc'
  by_cases hbd : refilledTokens s cid now ≤ 0
  · rw [checkLimit_burst_denied hbd] at hc'
    simp only [getClient_setClient_self, Option.some.injEq] at hc'
    subst hc'
    exact ⟨hnn, hle, htrim⟩
  · by_cases hw : s.requestsPerMinute ≤ ((trimmedRequests s cid now).length : Int)
    · rw [checkLimit_window_denied (by omega) hw] at hc'
      simp only [getClient_setClient_self, Option.some.injEq] at hc'
      subst hc'
      exact ⟨hnn, hle, htrim⟩
    · rw [checkLimit_allowed_eq (by omega) (by omega)] at hc'
      simp only [getClient_setClient_self, Option.some.injEq] at hc'
      subst hc'
      refine ⟨show (0 : Int) ≤ refilledTokens s cid now - 1 by omega,
        show refilledTokens s cid now - 1 ≤ s.burst by omega, fun ts hts => ?_⟩
      rcases List.mem_append.mp hts with h | h
      · exact htrim ts h
      · simp only [List.mem_singleton] at h
        omega

/-- C8 witness: the invariant theorem applied at a concrete state with one
in-window request; the post-call record is `⟨[999000, 1000000], 3⟩` and the
theorem yields its bounds. -/
theorem checkLimit_invariants_witness :
    0 ≤ (ClientRecord.mk [999000, 1000000] 3).burstTokens ∧
    (ClientRecord.mk [999000, 1000000] 3).burstTokens ≤ (10 : Int) ∧
    ((1000000 : Int) - 60000 < 999000 ∧ (999000 : Int) ≤ 1000000) := by
  have h := checkLimit_invariants ⟨60, 10, [("c", ⟨[999000], 4⟩)]⟩ "c" 1000000
    (by decide) (by decide) ⟨[999000, 1000000], 3⟩ (by decide)
  exact ⟨h.1, h.2.1, h.2.2 999000 (by decide)⟩

/-! ### C7 — ≥10s-spaced calls keep burst credits at capacity -/

theorem checkLimit_preserves_config (s : RateLimiter) (cid : String) (now : Int) :
    (checkLimit s cid now).2.requestsPerMinute = s.requestsPerMinute ∧
    (checkLimit s cid now).2.burst = s.burst := by
  by_cases hbd : refilledTokens s cid now ≤ 0
  · rw [checkLimit_burst_denied hbd]; exact ⟨rfl, rfl⟩
  · by_cases hw : s.requestsPerMinute ≤ ((trimmedRequests s cid now).length : Int)
    · rw [checkLimit_window_denied (by omega) hw]; exact ⟨rfl, rfl⟩
    · rw [checkLimit_allowed_eq (by omega) (by omega)]; exact ⟨rfl, rfl⟩

theorem c7_step {s : RateLimiter} {cid : String} {t : Int}
    (hb : 1 ≤ s.burst) (hinv : C7Inv s cid t)
    (hwin : ((trimmedRequests s cid t).length : Int) < s.requestsPerMinute) :
    refilledTokens s cid t = s.burst ∧
    (checkLimit s cid t).1.allowed = true ∧
    ∀ t', t + 10000 ≤ t' → C7Inv (checkLimit s cid t).2 cid t' := by
  have htok : (currentClient s cid).burstTokens = s.burst ∨
      (currentClient s cid).burstTokens = s.burst - 1 := by
    rcases hinv with h | ⟨c, hc, hctok, _⟩
    · left; simp [currentClient, h]
    · right; simp [currentClient, hc, hctok]
  have htb : ∀ x ∈ trimmedRequests s cid t, x + 10000 ≤ t := by
    intro x hx
    rcases hinv with h | ⟨c, hc, _, hreq⟩
    · have := (trimmedRequests_mem hx).1
      simp [currentClient, h] at this
    · have h1 := (trimmedRequests_mem hx).1
      rw [show currentClient s cid = c by simp [currentClient, hc]] at h1
      exact hreq x h1
  have hrefill : refilledTokens s cid t = s.burst := by
    by_cases hne : trimmedRequests s cid t = []
    · simp only [refilledTokens, hne, List.length_nil, lt_self_iff_false, if_false]
      omega
    · have hlen : 0 < (trimmedRequests s cid t).length := List.length_pos.mpr hne
      have hmax : listMax (trimmedRequests s cid t) ≤ t - 10000 :=
        listMax_le (fun x hx => by have := htb x hx; omega) hne
      have hadd : 1 ≤ (t - listMax (trimmedRequests s cid t)).fdiv 10000 := by
        rw [fdiv_tenthousand]; omega
      simp only [refilledTokens, if_pos hlen]
      omega
  have hall := @checkLimit_allowed_eq s cid t (by omega) hwin
  refine ⟨hrefill, by rw [hall], fun t' ht' => ?_⟩
  rw [hall]
  right
  refine ⟨⟨trimmedRequests s cid t ++ [t], refilledTokens s cid t - 1⟩,
    getClient_setClient_self _ _ _, by simp [hrefill], fun x hx => ?_⟩
  rcases List.mem_append.mp hx with h | h
  · have := htb x h; omega
  · simp only [List.mem_singleton] at h; omega

theorem runChecks_spaced {cid : String} :
    ∀ (ts : List Int) (s : RateLimiter), 1 ≤ s.burst →
      ts.Chain' (fun a b => a + 10000 ≤ b) →
      (∀ t₀, ts.head? = some t₀ → C7Inv s cid t₀) →
      (∀ o ∈ (runChecks s cid ts).1, (o.windowCount : Int) < s.requestsPerMinute) →
      ∀ o ∈ (runChecks s cid ts).1, o.result.allowed = true ∧ o.tokensAtCheck = s.burst := by
  intro ts
  induction ts with
  | nil => intro s _ _ _ _ o ho; simp [runChecks] at ho
  | cons t rest ih =>
    intro s hb hchain hinv hwin o ho
    have hinv0 : C7Inv s cid t := hinv t rfl
    have hwin0 : ((trimmedRequests s cid t).length : Int) < s.requestsPerMinute := by
      have := hwin ⟨(checkLimit s cid t).1, (trimmedRequests s cid t).length,
        refilledTokens s cid t⟩ (by simp [runChecks])
      simpa using this
    obtain ⟨hrefill, hallow, hpres⟩ := c7_step hb hinv0 hwin0
    obtain ⟨hrpm, hburst⟩ := checkLimit_preserves_config s cid t
    simp only [runChecks, List.mem_cons] at ho
    rcases ho with rfl | ho
    · exact ⟨hallow, hrefill⟩
    · have hbs : 1 ≤ (checkLimit s cid t).2.burst := by omega
      have hchain' : rest.Chain' (fun a b => a + 10000 ≤ b) := hchain.tail
      have hinv' : ∀ t₀, rest.head? = some t₀ → C7Inv (checkLimit s cid t).2 cid t₀ := by
        intro t₀ ht₀
        apply hpres
        cases rest with
        | nil => simp at ht₀
        | cons t₁ r =>
          simp only [List.head?_cons, Option.some.injEq] at ht₀
          subst ht₀
          exact (List.chain'_cons.mp hchain).1
      have hwin' : ∀ o ∈ (runChecks (checkLimit s cid t).2 cid rest).1,
          (o.windowCount : Int) < (checkLimit s cid t).2.requestsPerMinute := by
        intro o' ho'
        rw [hrpm]
        exact hwin o' (by simp [runChecks, ho'])
      have := ih (checkLimit s cid t).2 hbs hchain' hinv' hwin' o ho
      rw [hburst] at this
      exact this

/-- C7: starting from a state with no record for the caller, any sequence of
`checkLimit` calls whose consecutive instants are at least 10 seconds apart
(with the 60-second window never exhausted, and a positive burst capacity) is
entirely allowed, and at every call the refilled burst credit is back at full
capacity `burst`. -/
theorem spaced_calls_always_allowed (s : RateLimiter) (cid : String) (ts : List Int)
    (hb : 1 ≤ s.burst)
    (hfresh : getClient s.clients cid = none)
    (hspace : ts.Chain' (fun a b => a + 10000 ≤ b))
    (hwin : ∀ o ∈ (runChecks s cid ts).1, (o.windowCount : Int) < s.requestsPerMinute) :
    ∀ o ∈ (runChecks s cid ts).1, o.result.allowed = true ∧ o.tokensAtCheck = s.burst :=
  runChecks_spaced ts s hb hspace (fun _ _ => Or.inl hfresh) hwin

/-- C7 witness: three calls at t = 0s, 10s, 21s against a fresh caller with
burst capacity 10 and 60 requests per minute are all allowed with full burst
credit at each check. -/
theorem spaced_calls_always_allowed_witness :
    (runChecks ⟨60, 10, []⟩ "c" [0, 10000, 21000]).1.map
      (fun o => (o.result.allowed, o.tokensAtCheck)) =
      [(true, 10), (true, 10), (true, 10)] := by
  have h := spaced_calls_always_allowed ⟨60, 10, []⟩ "c" [0, 10000, 21000]
    (by decide) (by decide) (by norm_num [List.chain'_cons]) (by decide)
  decide

/-! ### C9 — idle callers are purged and restart fresh -/

theorem getClient_filter_none (l : List (String × ClientRecord)) (cid : String) (now : Int)
    (h : ∀ kv ∈ l, kv.1 = cid → ∀ ts ∈ kv.2.requests, ts < now - 300000) :
    getClient (l.filter (fun kv => kv.2.requests.any (fun ts => decide (now - 300000 < ts))))
      cid = none := by
  induction l with
  | nil => simp [getClient]
  | cons kv rest ih =>
    obtain ⟨k, c⟩ := kv
    have hrest := fun kv hkv => h kv (List.mem_cons_of_mem _ hkv)
    by_cases hk : (c.requests.any (fun ts => decide (now - 300000 < ts))) = true
    · rw [List.filter_cons_of_pos (by simpa using hk)]
      have hne : ¬ k = cid := by
        intro hkc
        obtain ⟨ts, hts, hgt⟩ := List.any_eq_true.mp hk
        have := h (k, c) (List.mem_cons_self _ _) hkc ts hts
        simp only [decide_eq_true_eq] at hgt
        omega
      simp only [getClient, if_neg hne]
      exact ih hrest
    · rw [List.filter_cons_of_neg (by simpa using hk)]
      exact ih hrest

theorem checkLimit_fresh {s : RateLimiter} {cid : String} (now : Int)
    (h : getClient s.clients cid = none)
    (hb : 0 < s.burst) (hr : 0 < s.requestsPerMinute) :
    checkLimit s cid now =
      (⟨true, none, min (s.requestsPerMinute - 1) (s.burst - 1), now, none⟩,
       { s with clients := setClient s.clients cid ⟨[now], s.burst - 1⟩ }) := by
  have htr : trimmedRequests s cid now = [] := by
    simp [trimmedRequests, currentClient, h]
  have hrf : refilledTokens s cid now = s.burst := by
    simp only [refilledTokens, htr, List.length_nil, lt_self_iff_false, if_false,
      currentClient, h, Option.getD_none]
    omega
  rw [checkLimit_allowed_eq (by omega) (by rw [htr]; simpa using hr)]
  rw [htr, hrf]
  norm_num

/-- C9: if every recorded timestamp of a caller lies before `now - 300s`, the
sweep at `now` removes the caller's record, and a later `checkLimit` for that
caller behaves exactly as a first-ever check: it is allowed with the full
burst credit minus the one consumed token, and the stored record holds a
single timestamp (the new call) and `burst - 1` tokens. -/
theorem cleanup_purges_idle_caller (s : RateLimiter) (cid : String) (now nowNext : Int)
    (hold : ∀ kv ∈ s.clients, kv.1 = cid → ∀ ts ∈ kv.2.requests, ts < now - 300000)
    (hb : 0 < s.burst) (hr : 0 < s.requestsPerMinute) :
    getClient (cleanup s now).clients cid = none ∧
    (checkLimit (cleanup s now) cid nowNext).1 =
      ⟨true, none, min (s.requestsPerMinute - 1) (s.burst - 1), nowNext, none⟩ ∧
    getClient (checkLimit (cleanup s now) cid nowNext).2.clients cid =
      some ⟨[nowNext], s.burst - 1⟩ := by
  have h1 : getClient (cleanup s now).clients cid = none := by
    simp only [cleanup]
    exact getClient_filter_none s.clients cid now hold
  have h2 := @checkLimit_fresh (cleanup s now) cid nowNext h1
    (by simpa [cleanup] using hb) (by simpa [cleanup] using hr)
  refine ⟨h1, ?_, ?_⟩
  · rw [h2]; simp [cleanup]
  · rw [h2]
    have := getClient_setClient_self (cleanup s now).clients cid
      ⟨[nowNext], (cleanup s now).burst - 1⟩
    simpa [cleanup] using this

/-- C9 witness: a caller whose only request is far older than 300s is purged
by the sweep at t = 1000s, and its next check at t = 2000s is allowed as a
first-ever check. -/
theorem cleanup_purges_idle_caller_witness :
    getClient (cleanup ⟨60, 10, [("c", ⟨[100], 3⟩)]⟩ 1000000).clients "c" = none ∧
    (checkLimit (cleanup ⟨60, 10, [("c", ⟨[100], 3⟩)]⟩ 1000000) "c" 2000000).1 =
      ⟨true, none, min (60 - 1) (10 - 1), 2000000, none⟩ ∧
    getClient (checkLimit (cleanup ⟨60, 10, [("c", ⟨[100], 3⟩)]⟩ 1000000) "c"
        2000000).2.clients "c" = some ⟨[2000000], 10 - 1⟩ :=
  cleanup_purges_idle_caller ⟨60, 10, [("c", ⟨[100], 3⟩)]⟩ "c" 1000000 2000000
    (by decide) (by decide) (by decide)

/-! ### C1 — searchLogs never throws and has no partial-success mode -/

/-- C1: `searchLogs` is a total function into `SearchResult` (the `try`/`catch`
around the request turns every thrown error into a returned envelope), and
there is no partial-success mode: whenever the result reports failure —
in particular whenever `makeRequest` fails after exhausting its attempts —
the envelope carries an error message, an empty event list and `total = 0`;
whenever `makeRequest` succeeds the envelope reports success.  Both the ESM
and the CJS client variants are covered. -/
theorem searchLogs_no_partial_success (query : String) (o : SearchOptions) (mr : Nat)
    (ao : Nat → Except String Payload) (t1 t2 : Int) :
    ((searchLogsESM query o mr ao t1 t2).1.success = false →
      ((searchLogsESM query o mr ao t1 t2).1.error.isSome ∧
       (searchLogsESM query o mr ao t1 t2).1.events = [] ∧
       (searchLogsESM query o mr ao t1 t2).1.total = 0)) ∧
    (∀ e, (makeRequest mr ao).1 = .error e →
      (searchLogsESM query o mr ao t1 t2).1 = ⟨false, some e, [], 0, query, none, none⟩) ∧
    (∀ p, (makeRequest mr ao).1 = .ok p →
      (searchLogsESM query o mr ao t1 t2).1.success = true) ∧
    ((searchLogsCJS query o mr ao t1 t2).1.success = false →
      ((searchLogsCJS query o mr ao t1 t2).1.error.isSome ∧
       (searchLogsCJS query o mr ao t1 t2).1.events = [] ∧
       (searchLogsCJS query o mr ao t1 t2).1.total = 0)) ∧
    (∀ e, (makeRequest mr ao).1 = .error e →
      (searchLogsCJS query o mr ao t1 t2).1 = ⟨false, some e, [], 0, query, none, none⟩) := by
  cases h : (makeRequest mr ao).1 with
  | ok p => simp [searchLogsESM, searchLogsCJS, h]
  | error e => simp [searchLogsESM, searchLogsCJS, h]

/-- C1 witness: with every attempt failing, the ESM client returns the
aggregated failure envelope with no events and `total = 0`. -/
theorem searchLogs_no_partial_success_witness :
    (searchLogsESM "q" ⟨none, none, none, none, none⟩ 3 (fun _ => .error "boom")
        0 0).1 = ⟨false, some "Failed after 3 attempts: boom", [], 0, "q", none, none⟩ :=
  (searchLogs_no_partial_success "q" ⟨none, none, none, none, none⟩ 3
    (fun _ => .error "boom") 0 0).2.1 "Failed after 3 attempts: boom" rfl

/-! ### C2 — retry count, backoff schedule, aggregated failure -/

theorem makeRequestGo_all_fail (ao : Nat → Except String Payload)
    (es : Nat → String) (mr : Nat)
    (hfail : ∀ i, 1 ≤ i → i ≤ mr → ao i = .error (es i)) :
    ∀ (r a : Nat) (lastErr : String), a + r = mr + 1 → 1 ≤ a →
      (lastErr = es (a - 1) ∨ 1 ≤ r) →
      makeRequestGo ao mr r a lastErr =
        (.error (failMsg mr (es mr)), mr,
         (List.range' (a - 1) (mr - a)).map (fun k => ((2 : Int) ^ k * 1000))) := by
  intro r
  induction r with
  | zero =>
    intro a lastErr hsum ha hl
    have ha' : a = mr + 1 := by omega
    rcases hl with hl | hl
    · subst ha'
      simp only [makeRequestGo]
      rw [hl]
      simp [Nat.add_sub_cancel, (by omega : mr - (mr + 1) = 0)]
    · omega
  | succ n ih =>
    intro a lastErr hsum ha _
    have hamr : a ≤ mr := by omega
    simp only [makeRequestGo]
    rw [hfail a ha hamr]
    by_cases hlt : a < mr
    · simp only [if_pos hlt]
      rw [ih (a + 1) (es a) (by omega) (by omega) (Or.inl (by simp))]
      have hr : mr - a = (mr - (a + 1)) + 1 := by omega
      have ha1 : (a + 1) - 1 = (a - 1) + 1 := by omega
      rw [hr, ha1, List.range'_succ]
      simp [(by omega : a - 1 + 1 = a)]
    · have haeq : a = mr := by omega
      simp only [if_neg hlt]
      have hn : n = 0 := by omega
      subst hn
      subst haeq
      simp only [makeRequestGo]
      simp [Nat.add_sub_cancel, (by omega : a - a = 0)]

/-- C2: when every attempt fails, `makeRequest` performs exactly `maxRetries`
attempts, sleeps `2^(attempt-1)` seconds (recorded in ms) after each failed
non-final attempt — for `maxRetries = 3` the delays are `[1000, 2000]` ms
summing to 3 seconds of cumulative backoff before the final attempt — and
surfaces a single aggregated error carrying the last attempt's message; and
any first attempt that returns a 2xx payload (whatever its contents, e.g.
zero events) ends the loop at one attempt with no backoff. -/
theorem makeRequest_retry_policy (mr : Nat) (ao : Nat → Except String Payload)
    (es : Nat → String) (hmr : 1 ≤ mr)
    (hfail : ∀ i, 1 ≤ i → i ≤ mr → ao i = .error (es i)) :
    (makeRequest mr ao =
      (.error (failMsg mr (es mr)), mr,
       (List.range (mr - 1)).map (fun k => ((2 : Int) ^ k * 1000)))) ∧
    (mr = 3 → (makeRequest mr ao).2.2 = [1000, 2000] ∧
      ((makeRequest mr ao).2.2).sum = 3000) ∧
    (∀ (ao2 : Nat → Except String Payload) (p : Payload), ao2 1 = .ok p →
      makeRequest mr ao2 = (.ok p, 1, [])) := by
  have h1 : makeRequest mr ao =
      (.error (failMsg mr (es mr)), mr,
       (List.range (mr - 1)).map (fun k => ((2 : Int) ^ k * 1000))) := by
    rw [makeRequest, makeRequestGo_all_fail ao es mr hfail mr 1 "" (by omega) (by omega)
      (Or.inr (by omega))]
    rw [List.range_eq_range']
  refine ⟨h1, fun h3 => ?_, fun ao2 p hok => ?_⟩
  · subst h3
    rw [h1]
    norm_num [List.range_succ]
  · obtain ⟨k, rfl⟩ : ∃ k, mr = k + 1 := ⟨mr - 1, by omega⟩
    simp only [makeRequest, makeRequestGo]
    rw [hok]

/-- C2 witness: three failing attempts with HTTP 500 yield the aggregated
failure after exactly 3 attempts with delays 1s then 2s; an immediately
successful attempt ends after 1 attempt with no delays. -/
theorem makeRequest_retry_policy_witness :
    makeRequest 3 (fun _ => .error "Papertrail API error (500): oops") =
      (.error "Failed after 3 attempts: Papertrail API error (500): oops", 3,
        [1000, 2000]) ∧
    makeRequest 3 (fun _ => .ok ⟨some [], none, none⟩) =
      (.ok ⟨some [], none, none⟩, 1, []) := by
  have h := makeRequest_retry_policy 3 (fun _ => .error "Papertrail API error (500): oops")
    (fun _ => "Papertrail API error (500): oops") (by omega) (fun _ _ _ => rfl)
  exact ⟨by rw [h.1]; rfl, h.2.2 (fun _ => .ok ⟨some [], none, none⟩) ⟨some [], none, none⟩ rfl⟩

/-! ### C4 — default time range and the reported timeRange -/

/-- C4 counterexample: with no `minTime`/`maxTime` and the wall clock moving
from 10000000 ms (request construction) to 10001000 ms (response handling),
the request is sent with `min_time/max_time = [6400, 10000]` but the returned
`timeRange` is `[6401, 10001]` — the defaults are recomputed after the
response, so `timeRange` does not equal the values actually sent. -/
theorem searchLogs_timeRange_counterexample :
    (searchLogsESM "q" ⟨none, none, none, none, none⟩ 3
      (fun _ => .ok ⟨some [], none, none⟩) 10000000 10001000).2.min_time = 6400 ∧
    (searchLogsESM "q" ⟨none, none, none, none, none⟩ 3
      (fun _ => .ok ⟨some [], none, none⟩) 10000000 10001000).2.max_time = 10000 ∧
    (searchLogsESM "q" ⟨none, none, none, none, none⟩ 3
      (fun _ => .ok ⟨some [], none, none⟩) 10000000 10001000).1.timeRange
      = some ⟨6401, 10001⟩ ∧
    (searchLogsESM "q" ⟨none, none, none, none, none⟩ 3
      (fun _ => .ok ⟨some [], none, none⟩) 10000000 10001000).1.timeRange
      ≠ some ⟨6400, 10000⟩ := by
  decide

/-- C4 (amended): with `minTime`/`maxTime` absent, the request is sent with
`min_time/max_time` defaulted to `[now − 3600 s, now]` as whole-second epoch
values of the wall clock `t1` read at request construction; the returned
`timeRange` is the same default recomputed at the response-time clock `t2`,
so it equals the sent values exactly when the two reads floor to the same
second; two successful calls whose response clocks differ by ≥ 1 s yield
different `timeRange` values, while the `limit` sent is identical and
independent of the clock. -/
theorem searchLogs_default_timeRange (query : String) (o : SearchOptions) (mr : Nat)
    (ao : Nat → Except String Payload) (t1 t2 t1b t2b : Int) (p : Payload)
    (hmin : o.minTime = none) (hmax : o.maxTime = none)
    (hok : (makeRequest mr ao).1 = .ok p) :
    ((searchLogsESM query o mr ao t1 t2).2.min_time = (t1 - 3600000).fdiv 1000 ∧
     (searchLogsESM query o mr ao t1 t2).2.max_time = t1.fdiv 1000 ∧
     (searchLogsESM query o mr ao t1 t2).2.min_time =
       (searchLogsESM query o mr ao t1 t2).2.max_time - 3600) ∧
    (searchLogsESM query o mr ao t1 t2).1.timeRange =
      some ⟨(t2 - 3600000).fdiv 1000, t2.fdiv 1000⟩ ∧
    (t1.fdiv 1000 = t2.fdiv 1000 →
      (searchLogsESM query o mr ao t1 t2).1.timeRange =
        some ⟨(searchLogsESM query o mr ao t1 t2).2.min_time,
              (searchLogsESM query o mr ao t1 t2).2.max_time⟩) ∧
    (t2 + 1000 ≤ t2b →
      (searchLogsESM query o mr ao t1 t2).1.timeRange ≠
        (searchLogsESM query o mr ao t1b t2b).1.timeRange) ∧
    (searchLogsESM query o mr ao t1 t2).2.limit =
      (searchLogsESM query o mr ao t1b t2b).2.limit := by
  have harith : ∀ t : Int, (t - 3600000).fdiv 1000 = t.fdiv 1000 - 3600 := by
    intro t
    rw [fdiv_thousand, fdiv_thousand]
    omega
  have hbp : ∀ ta : Int, buildParams query o ta =
      ⟨query, (ta - 3600000).fdiv 1000, ta.fdiv 1000, jsOr o.limit 100,
       jsTruthy o.system_id, jsTruthy o.group_id⟩ := by
    intro ta
    simp [buildParams, jsOr, hmin, hmax, getDefaultMinTime, getDefaultMaxTime]
  have htr : ∀ ta tb : Int, (searchLogsESM query o mr ao ta tb).1.timeRange =
      some ⟨(tb - 3600000).fdiv 1000, tb.fdiv 1000⟩ := by
    intro ta tb
    simp [searchLogsESM, hok, jsOr, hmin, hmax, getDefaultMinTime, getDefaultMaxTime]
  refine ⟨⟨?_, ?_, ?_⟩, htr t1 t2, fun heq => ?_, fun hgap => ?_, ?_⟩
  · rw [searchLogsESM_params, hbp]
  · rw [searchLogsESM_params, hbp]
  · rw [searchLogsESM_params, hbp]
    simp only
    rw [harith]
  · rw [htr, searchLogsESM_params, hbp]
    simp only [Option.some.injEq, TimeRange.mk.injEq]
    exact ⟨by rw [harith, harith, heq], heq.symm⟩
  · rw [htr, htr]
    have hlt : t2.fdiv 1000 < t2b.fdiv 1000 := by
      rw [fdiv_thousand, fdiv_thousand]; omega
    simp only [ne_eq, Option.some.injEq, TimeRange.mk.injEq, not_and]
    intro _ h2
    omega
  · rw [searchLogsESM_params, searchLogsESM_params, hbp, hbp]

/-- C4 witness: two successful default-time calls with response clocks 1.5 s
apart report different `timeRange` values. -/
theorem searchLogs_default_timeRange_witness :
    (searchLogsESM "q" ⟨none, none, none, none, none⟩ 3
      (fun _ => .ok ⟨some [], none, none⟩) 10000000 10001000).1.timeRange ≠
    (searchLogsESM "q" ⟨none, none, none, none, none⟩ 3
      (fun _ => .ok ⟨some [], none, none⟩) 10002000 10002500).1.timeRange :=
  ((searchLogs_default_timeRange "q" ⟨none, none, none, none, none⟩ 3
    (fun _ => .ok ⟨some [], none, none⟩) 10000000 10001000 10002000 10002500
    ⟨some [], none, none⟩ rfl rfl rfl).2.2.2.1) (by omega)

/-! ### C5 — total normalization -/

/-- C5 counterexample: a successful payload carrying an explicit total
(`total_events = 5`, also `total_hits = 5`) together with two events makes
the ESM client (the one used by the tool) report `total = 2`, the event-list
length — the explicit total is ignored, contradicting the claim that `total`
equals the payload's explicit total count when one is present. -/
theorem searchLogs_total_counterexample :
    (searchLogsESM "q" ⟨none, none, none, none, none⟩ 3
      (fun _ => .ok ⟨some [⟨1, "2023-12-01T10:00:00Z", "h1", "app", "m1", 6⟩,
        ⟨2, "2023-12-01T10:00:01Z", "h2", "app", "m2", 6⟩], some 5, some 5⟩)
      0 0).1.total = 2 ∧
    (Payload.mk (some [⟨1, "2023-12-01T10:00:00Z", "h1", "app", "m1", 6⟩,
      ⟨2, "2023-12-01T10:00:01Z", "h2", "app", "m2", 6⟩]) (some 5) (some 5)).total_events
      = some 5 ∧
    (2 : Int) ≠ 5 := by
  decide

/-- C5 (amended): on every successful call the ESM client sets `total` to the
event-list length, ignoring any explicit total in the payload; the CJS
variant sets `total` to the payload's `total_events` field when it is present
and nonzero, falling back to the event-list length otherwise; neither variant
reads the `total_hits` count. -/
theorem searchLogs_total_normalization (query : String) (o : SearchOptions) (mr : Nat)
    (ao : Nat → Except String Payload) (t1 t2 : Int) (p : Payload)
    (hok : (makeRequest mr ao).1 = .ok p) :
    (searchLogsESM query o mr ao t1 t2).1.total = ((p.events.getD []).length : Int) ∧
    (searchLogsCJS query o mr ao t1 t2).1.total =
      jsOr p.total_events ((p.events.getD []).length : Int) := by
  simp [searchLogsESM, searchLogsCJS, hok]

/-- C5 witness: the amended theorem applied at the two-event payload with
explicit `total_events = 5`: ESM reports 2, CJS reports 5. -/
theorem searchLogs_total_normalization_witness :
    (searchLogsESM "q" ⟨none, none, none, none, none⟩ 3
      (fun _ => .ok ⟨some [⟨1, "2023-12-01T10:00:00Z", "h1", "app", "m1", 6⟩,
        ⟨2, "2023-12-01T10:00:01Z", "h2", "app", "m2", 6⟩], some 5, some 5⟩)
      0 0).1.total =
      (((Payload.mk (some [⟨1, "2023-12-01T10:00:00Z", "h1", "app", "m1", 6⟩,
        ⟨2, "2023-12-01T10:00:01Z", "h2", "app", "m2", 6⟩]) (some 5)
        (some 5)).events.getD []).length : Int) ∧
    (searchLogsCJS "q" ⟨none, none, none, none, none⟩ 3
      (fun _ => .ok ⟨some [⟨1, "2023-12-01T10:00:00Z", "h1", "app", "m1", 6⟩,
        ⟨2, "2023-12-01T10:00:01Z", "h2", "app", "m2", 6⟩], some 5, some 5⟩)
      0 0).1.total =
      jsOr (some 5) (((Payload.mk (some [⟨1, "2023-12-01T10:00:00Z", "h1", "app", "m1", 6⟩,
        ⟨2, "2023-12-01T10:00:01Z", "h2", "app", "m2", 6⟩]) (some 5)
        (some 5)).events.getD []).length : Int) :=
  searchLogs_total_normalization "q" ⟨none, none, none, none, none⟩ 3
    (fun _ => .ok ⟨some [⟨1, "2023-12-01T10:00:00Z", "h1", "app", "m1", 6⟩,
      ⟨2, "2023-12-01T10:00:01Z", "h2", "app", "m2", 6⟩], some 5, some 5⟩)
    0 0 ⟨some [⟨1, "2023-12-01T10:00:00Z", "h1", "app", "m1", 6⟩,
      ⟨2, "2023-12-01T10:00:01Z", "h2", "app", "m2", 6⟩], some 5, some 5⟩ rfl

/-! ### C6 — the limit actually sent upstream -/

theorem validateSearchArgs_limit_ne_nil {a : Args} {v : Int} (h : a.limit = some v) :
    validateSearchArgs a ≠ [] := by
  cases hq : a.query <;> simp [validateSearchArgs, h, hq]

theorem executeSearchLogs_sent_limit {a : Args} {cid : String} {s : RateLimiter}
    {nowRL : Int} {pd : String → Option Int} {mr : Nat}
    {ao : Nat → Except String Payload} {t1 t2 : Int} {p : SentParams}
    (hp : (executeSearchLogs a cid s nowRL pd mr ao t1 t2).2.2 = some p) :
    validateSearchArgs a = [] ∧ p.limit = 100 := by
  simp only [executeSearchLogs] at hp
  split at hp
  · exact absurd hp (by simp)
  split at hp
  · exact absurd hp (by simp)
  split at hp
  · exact absurd hp (by simp)
  rename_i hne
  have hnil : validateSearchArgs a = [] := by
    by_contra hc
    exact hne hc
  have hlim : a.limit = none := (validateSearchArgs_nil hnil).1
  refine ⟨hnil, ?_⟩
  split at hp
  · exact absurd hp (by simp)
  split at hp
  · exact absurd hp (by simp)
  split at hp <;>
  · simp only [Option.some.injEq] at hp
    subst hp
    rw [searchLogsESM_params]
    simp [buildParams, jsOr, executeLimit, hlim]

/-- C6 counterexample: a caller-supplied `limit = 5000` (with admission
capacity and a valid query) is not clamped to 1000 and sent — the call fails
validation with `INVALID_ARGUMENTS` and no request is sent at all; moreover
the options-construction clamp has no lower bound: `executeLimit (some (-5))`
is `-5`, outside `[1, 1000]`. -/
theorem executeSearchLogs_limit_counterexample :
    (executeSearchLogs ⟨some "error", none, none, some 5000, none, none⟩ "default"
      ⟨60, 10, []⟩ 1000000 (fun _ => none) 3 (fun _ => .ok ⟨some [], none, none⟩)
      10000000 10001000).1.success = false ∧
    (executeSearchLogs ⟨some "error", none, none, some 5000, none, none⟩ "default"
      ⟨60, 10, []⟩ 1000000 (fun _ => none) 3 (fun _ => .ok ⟨some [], none, none⟩)
      10000000 10001000).1.code = some "INVALID_ARGUMENTS" ∧
    (executeSearchLogs ⟨some "error", none, none, some 5000, none, none⟩ "default"
      ⟨60, 10, []⟩ 1000000 (fun _ => none) 3 (fun _ => .ok ⟨some [], none, none⟩)
      10000000 10001000).2.2 = none ∧
    executeLimit (some (-5)) = -5 ∧ ¬ (1 : Int) ≤ executeLimit (some (-5)) := by
  decide

/-- C6 (amended): every `limit` actually sent upstream by the tool equals the
default 100 and so lies in [1, 1000] — but not because out-of-range values are
clamped: the options-construction clamp `min(parseInt(limit) || 100, 1000)`
is upper-only (it maps an absent limit to 100 and 5000 to 1000 but would pass
−5 through), and it is unreachable for any caller-supplied limit, because
schema validation rejects every present numeric `limit` (the validator
compares `typeof`, which yields `number`, against the schema type `integer`)
with `INVALID_ARGUMENTS` before any request is sent. -/
theorem executeSearchLogs_limit_range (a : Args) (cid : String) (s : RateLimiter)
    (nowRL : Int) (pd : String → Option Int) (mr : Nat)
    (ao : Nat → Except String Payload) (t1 t2 : Int) :
    (∀ p, (executeSearchLogs a cid s nowRL pd mr ao t1 t2).2.2 = some p →
      p.limit = 100 ∧ 1 ≤ p.limit ∧ p.limit ≤ 1000) ∧
    (executeLimit none = 100 ∧ executeLimit (some 5000) = 1000 ∧
      executeLimit (some (-5)) = -5) ∧
    (∀ v, a.limit = some v → (checkLimit s cid nowRL).1.allowed = true →
      jsTrim (a.query.getD "") ≠ "" →
      (executeSearchLogs a cid s nowRL pd mr ao t1 t2).1.code
        = some "INVALID_ARGUMENTS" ∧
      (executeSearchLogs a cid s nowRL pd mr ao t1 t2).2.2 = none) := by
  refine ⟨fun p hp => ?_, by decide, fun v hv hallow hq => ?_⟩
  · obtain ⟨-, hl⟩ := executeSearchLogs_sent_limit hp
    omega
  · have hne := validateSearchArgs_limit_ne_nil hv
    simp [executeSearchLogs, hallow, hq, hne, formatMcpError]

/-- C6 witness: a caller-supplied `limit = 5000` with admission capacity and a
nonempty query is rejected with `INVALID_ARGUMENTS` and no request is sent
(it is not clamped to 1000 and forwarded). -/
theorem executeSearchLogs_limit_range_witness :
    (executeSearchLogs ⟨some "error", none, none, some 5000, none, none⟩ "default"
      ⟨60, 10, []⟩ 1000000 (fun _ => none) 3 (fun _ => .ok ⟨some [], none, none⟩)
      10000000 10001000).1.code = some "INVALID_ARGUMENTS" ∧
    (executeSearchLogs ⟨some "error", none, none, some 5000, none, none⟩ "default"
      ⟨60, 10, []⟩ 1000000 (fun _ => none) 3 (fun _ => .ok ⟨some [], none, none⟩)
      10000000 10001000).2.2 = none :=
  (executeSearchLogs_limit_range ⟨some "error", none, none, some 5000, none, none⟩
    "default" ⟨60, 10, []⟩ 1000000 (fun _ => none) 3
    (fun _ => .ok ⟨some [], none, none⟩) 10000000 10001000).2.2 5000 rfl
    (by decide) (by decide)

/-! ### C10 — rate limiting is applied before query validation -/

theorem checkLimit_allowed_state {s : RateLimiter} {cid : String} {now : Int}
    (h : (checkLimit s cid now).1.allowed = true) :
    (checkLimit s cid now).2.clients =
      setClient s.clients cid
        ⟨trimmedRequests s cid now ++ [now], refilledTokens s cid now - 1⟩ := by
  by_cases hbd : refilledTokens s cid now ≤ 0
  · rw [checkLimit_burst_denied hbd] at h
    simp at h
  · by_cases hw : s.requestsPerMinute ≤ ((trimmedRequests s cid now).length : Int)
    · rw [checkLimit_window_denied (by omega) hw] at h
      simp at h
    · rw [checkLimit_allowed_eq (by omega) (by omega)]

/-- C10: when the caller still has admission capacity but the query is absent
or blank, `executeSearchLogs` fails with `INVALID_ARGUMENTS` and sends no
request — yet the caller's admission state is still mutated, because the rate
limiter runs before query validation: the returned state is exactly the
post-`checkLimit` state, whose record for the caller has the call instant
appended to its window and one burst token consumed. -/
theorem invalid_query_consumes_rate_limit (a : Args) (cid : String) (s : RateLimiter)
    (nowRL : Int) (pd : String → Option Int) (mr : Nat)
    (ao : Nat → Except String Payload) (t1 t2 : Int)
    (hq : a.query = none ∨ jsTrim (a.query.getD "") = "")
    (hallow : (checkLimit s cid nowRL).1.allowed = true) :
    (executeSearchLogs a cid s nowRL pd mr ao t1 t2).1.success = false ∧
    (executeSearchLogs a cid s nowRL pd mr ao t1 t2).1.code
      = some "INVALID_ARGUMENTS" ∧
    (executeSearchLogs a cid s nowRL pd mr ao t1 t2).2.2 = none ∧
    (executeSearchLogs a cid s nowRL pd mr ao t1 t2).2.1 = (checkLimit s cid nowRL).2 ∧
    getClient (executeSearchLogs a cid s nowRL pd mr ao t1 t2).2.1.clients cid =
      some ⟨trimmedRequests s cid nowRL ++ [nowRL], refilledTokens s cid nowRL - 1⟩ := by
  have hq' : jsTrim (a.query.getD "") = "" := by
    rcases hq with h | h
    · rw [h]; rfl
    · exact h
  refine ⟨?_, ?_, ?_, ?_, ?_⟩ <;>
    simp [executeSearchLogs, hallow, hq', formatMcpError, checkLimit_allowed_state hallow,
      getClient_setClient_self]

/-- C10 witness: a missing query against a fresh caller with capacity yields
`INVALID_ARGUMENTS` while the caller's record now holds one recorded
timestamp and 9 of 10 burst tokens. -/
theorem invalid_query_consumes_rate_limit_witness :
    (executeSearchLogs ⟨none, none, none, none, none, none⟩ "default" ⟨60, 10, []⟩
      1000000 (fun _ => none) 3 (fun _ => .ok ⟨some [], none, none⟩)
      10000000 10001000).1.code = some "INVALID_ARGUMENTS" ∧
    getClient (executeSearchLogs ⟨none, none, none, none, none, none⟩ "default"
      ⟨60, 10, []⟩ 1000000 (fun _ => none) 3 (fun _ => .ok ⟨some [], none, none⟩)
      10000000 10001000).2.1.clients "default" =
      some ⟨trimmedRequests ⟨60, 10, []⟩ "default" 1000000 ++ [1000000],
        refilledTokens ⟨60, 10, []⟩ "default" 1000000 - 1⟩ :=
  ⟨(invalid_query_consumes_rate_limit ⟨none, none, none, none, none, none⟩ "default"
      ⟨60, 10, []⟩ 1000000 (fun _ => none) 3 (fun _ => .ok ⟨some [], none, none⟩)
      10000000 10001000 (Or.inl rfl) (by decide)).2.1,
   (invalid_query_consumes_rate_limit ⟨none, none, none, none, none, none⟩ "default"
      ⟨60, 10, []⟩ 1000000 (fun _ => none) 3 (fun _ => .ok ⟨some [], none, none⟩)
      10000000 10001000 (Or.inl rfl) (by decide)).2.2.2.2⟩

end Papertrail
